import Mathlib

/-!
Verification development for the FlexOne chat-relay service
(`src/backend/application.py`).

The backend is a FastAPI application that forwards conversations to a
remote LLM provider.  The shallow embedding below translates the pure
request/response shaping logic of the four chat endpoints
(`/chat`, `/chat/details`, `/chat/kb`, `/chat/simple`), the knowledge-base
store (`load_knowledge_base`, `create_system_prompt`,
`/knowledge-base/category/{name}`, `/knowledge-base/reload`) and the
provider error mapping into Lean.  The remote provider is modelled as an
oracle argument: a function from the outbound provider call to either a
typed provider failure or a provider response, mirroring the single
synchronous `client.chat.completions.create` call each endpoint performs.
-/

namespace FlexOne

/-- JSON values, as produced by Python's `json.load` for `doc.json`
(`KNOWLEDGE_BASE`).  Numbers are restricted to integers; no claim depends
on fractional numeric payloads. -/
inductive Json where
  | null : Json
  | bool (b : Bool) : Json
  | num (n : Int) : Json
  | str (s : String) : Json
  | arr (elems : List Json) : Json
  | obj (fields : List (String × Json)) : Json

mutual

/-- Deterministic serialization of a document, modelling
`json.dumps(KNOWLEDGE_BASE, indent=2)`.  The model renders compactly
(no indentation); like the source it is a pure deterministic function of
the document, which is all the injected prompt text depends on. -/
def Json.dumps : Json → String
  | Json.null => "null"
  | Json.bool b => cond b "true" "false"
  | Json.num n => toString n
  | Json.str s => "\x22" ++ s ++ "\x22"
  | Json.arr es => "[" ++ Json.dumpsList es ++ "]"
  | Json.obj fs => "\x7b" ++ Json.dumpsFields fs ++ "\x7d"

/-- Serialization of a JSON array body, comma separated. -/
def Json.dumpsList : List Json → String
  | [] => ""
  | [e] => Json.dumps e
  | e :: es => Json.dumps e ++ ", " ++ Json.dumpsList es

/-- Serialization of a JSON object body, comma separated. -/
def Json.dumpsFields : List (String × Json) → String
  | [] => ""
  | [(k, v)] => "\x22" ++ k ++ "\x22: " ++ Json.dumps v
  | (k, v) :: fs => "\x22" ++ k ++ "\x22: " ++ Json.dumps v ++ ", " ++ Json.dumpsFields fs

end

/-- Python truthiness of a JSON value (`if ... and KNOWLEDGE_BASE:`):
`None`, `False`, `0`, empty string, empty list and empty dict are falsy. -/
def Json.pyTruthy : Json → Bool
  | Json.null => false
  | Json.bool b => b
  | Json.num n => n != 0
  | Json.str s => s != ""
  | Json.arr es => !es.isEmpty
  | Json.obj fs => !fs.isEmpty

/-- Python `d.get(k, default)` on a value expected to be a dict.
On a non-dict value the attribute access raises (`AttributeError`),
modelled as the `.error` case. -/
def Json.pyDictGet : Json → String → Json → Except String Json
  | Json.obj fs, k, d => Except.ok ((fs.lookup k).getD d)
  | _, _, _ => Except.error "AttributeError"

/-- Message roles accepted by the pydantic `Message` model:
`Literal["user", "assistant", "system"]`. -/
inductive Role where
  | user : Role
  | assistant : Role
  | system : Role
deriving DecidableEq

/-- A chat message: `class Message(BaseModel): role; content`. -/
structure Message where
  role : Role
  content : String
deriving DecidableEq

/-- The knowledge store's process-wide state: the module globals
`KNOWLEDGE_BASE` (initially `{}`) and `KB_LOADED` (initially `False`). -/
structure KBState where
  knowledge_base : Json := Json.obj []
  kb_loaded : Bool := false

/-- Outcome of one attempt to open and parse `doc.json`: the file-system
and parser effects of `load_knowledge_base`, supplied externally. -/
inductive LoadResult where
  | ok (doc : Json) : LoadResult
  | fileNotFound : LoadResult
  | parseError (msg : String) : LoadResult

/-- `load_knowledge_base()`: on success assigns `KNOWLEDGE_BASE` and sets
`KB_LOADED = True`; on `FileNotFoundError` or `json.JSONDecodeError` sets
`KB_LOADED = False` and leaves `KNOWLEDGE_BASE` unassigned. -/
def load_knowledge_base (prev : KBState) : LoadResult → KBState
  | LoadResult.ok doc => { knowledge_base := doc, kb_loaded := true }
  | LoadResult.fileNotFound => { prev with kb_loaded := false }
  | LoadResult.parseError _ => { prev with kb_loaded := false }

/-- Response body of `POST /knowledge-base/reload`. -/
structure ReloadBody where
  success : Bool
  message : String
deriving DecidableEq

/-- `POST /knowledge-base/reload`: runs `load_knowledge_base()` and
reports whether `KB_LOADED` ended up true. -/
def reload_knowledge_base (prev : KBState) (r : LoadResult) : KBState × ReloadBody :=
  let st := load_knowledge_base prev r
  (st, { success := st.kb_loaded,
         message := if st.kb_loaded then "Knowledge base reloaded successfully"
                    else "Failed to reload knowledge base" })

/-- The fixed persona text of `create_system_prompt` (`base_prompt`),
before the optional knowledge-base context is appended. -/
def base_prompt : String :=
  "You are FlexOne AI Assistant, an intelligent guide for Consumer Edge testing and operations.\n\nYour personality:\n- Friendly, helpful, and professional\n- Use emojis sparingly (👋 ✅ 🔹 ⚠️) to make responses engaging\n- Break down complex topics into digestible steps\n- Proactive in offering additional help\n- Clear and concise\n\nResponse Guidelines:\n1. **Detect Intent**: Understand if the user needs:\n   - Tutorial/Step-by-step guidance\n   - Quick information\n   - Commands/technical reference\n   - Troubleshooting help\n\n2. **Response Style**:\n   - For beginners: Explain concepts first, then provide commands\n   - For experienced users: Give direct answers with commands\n   - Always offer to elaborate or show related information\n   \n3. **Structure Your Responses**:\n   - Start with a brief acknowledgment\n   - Provide the core answer\n   - Offer next steps or related help\n   - Use markdown formatting for readability\n\n4. **Command Formatting**:\n   - Always use code blocks for commands\n   - Explain what each command does\n   - Show expected output when relevant\n\n5. **Proactive Assistance**:\n   - Suggest related topics\n   - Offer deeper dives into subjects\n   - Ask clarifying questions when needed\n\nRemember: You\x27re here to make testing and operations easier for the team. Be supportive and informative!"

/-- The rendered knowledge context, i.e. the text the endpoints append to
a system prompt: `"\n\nKnowledge Base Context:\n" + json.dumps(...)` when
`KB_LOADED and KNOWLEDGE_BASE` is truthy, empty otherwise.  This is the
spec's `renderAsPromptContext()`. -/
def kbContextSuffix (st : KBState) : String :=
  if st.kb_loaded && st.knowledge_base.pyTruthy then
    "\n\nKnowledge Base Context:\n" ++ st.knowledge_base.dumps
  else ""

/-- `create_system_prompt()`: the persona text, with the knowledge-base
context appended when `KB_LOADED and KNOWLEDGE_BASE` is truthy. -/
def create_system_prompt (st : KBState) : String :=
  if st.kb_loaded && st.knowledge_base.pyTruthy then
    base_prompt ++ ("\n\nKnowledge Base Context:\n" ++ st.knowledge_base.dumps)
  else base_prompt

/-- The pydantic `ChatRequest` body for `POST /chat` and
`POST /chat/details`.  `Option` fields model `Optional[...]`: an absent
field takes the declared default (captured by the structure defaults),
an explicit JSON `null` is `none`. -/
structure ChatRequest where
  messages : List Message
  model : Option String := some "gpt-3.5-turbo"
  temperature : Option Rat := some (7 / 10)
  max_tokens : Option Int := some 1500
  use_knowledge_base : Option Bool := some true
deriving DecidableEq

/-- Python `x or default` for an optional string: `None` and `""` are
falsy and yield the default. -/
def pyOrStr (x : Option String) (d : String) : String :=
  match x with
  | some s => if s = "" then d else s
  | none => d

/-- Python `x or default` for an optional number (`temperature`):
`None` and `0.0` are falsy and yield the default. -/
def pyOrRat (x : Option Rat) (d : Rat) : Rat :=
  match x with
  | some t => if t = 0 then d else t
  | none => d

/-- Python `x or default` for an optional integer (`max_tokens`):
`None` and `0` are falsy and yield the default. -/
def pyOrInt (x : Option Int) (d : Int) : Int :=
  match x with
  | some n => if n = 0 then d else n
  | none => d

/-- Python `x or default` for an optional HTTP status
(`e.status_code or 500`): `None` and `0` yield the default. -/
def pyOrNat (x : Option Nat) (d : Nat) : Nat :=
  match x with
  | some n => if n = 0 then d else n
  | none => d

/-- Python `x and y` for an `Optional[bool]` left operand: short-circuits
on the falsy values `None` and `False`, otherwise yields `y`. -/
def pyAnd (x : Option Bool) (y : Bool) : Option Bool :=
  match x with
  | none => none
  | some false => some false
  | some true => some y

/-- Python truthiness of an `Optional[bool]` (`if request.use_knowledge_base
and ...`): `None` is falsy. -/
def pyTruthyB (x : Option Bool) : Bool :=
  match x with
  | some b => b
  | none => false

/-- Python `x or ""` applied to `response.choices[0].message.content`. -/
def pyOrEmptyStr (x : Option String) : String := x.getD ""

/-- `any(msg["role"] == "system" for msg in messages)`. -/
def hasSystem (msgs : List Message) : Bool :=
  msgs.any (fun m => m.role == Role.system)

/-- Number of system messages in a list (used to state the duplication
invariants). -/
def countSystem (msgs : List Message) : Nat :=
  msgs.countP (fun m => m.role == Role.system)

/-- The `else` branch of `/chat/details` prompt injection: walk the
messages, append the knowledge context to the first system message
(when `KB_LOADED and KNOWLEDGE_BASE` is truthy) and stop (`break`),
leaving every other message untouched. -/
def enhanceFirstSystem (st : KBState) : List Message → List Message
  | [] => []
  | m :: rest =>
    if m.role == Role.system then
      (if st.kb_loaded && st.knowledge_base.pyTruthy then
        { m with content := m.content ++ ("\n\nKnowledge Base Context:\n" ++ st.knowledge_base.dumps) }
       else m) :: rest
    else m :: enhanceFirstSystem st rest

/-- Prompt composition of `POST /chat/details` (handler `chat`): when
`request.use_knowledge_base and KB_LOADED`, either prepend a synthesized
system message (no system message present) or augment the first existing
system message; otherwise forward the messages unmodified. -/
def injectKB_details (st : KBState) (use_knowledge_base : Option Bool)
    (msgs : List Message) : List Message :=
  if pyTruthyB use_knowledge_base && st.kb_loaded then
    if !hasSystem msgs then
      { role := Role.system, content := create_system_prompt st } :: msgs
    else
      enhanceFirstSystem st msgs
  else msgs

/-- Prompt composition of `POST /chat` (handler `chat_endpoint`): when
`KB_LOADED` — regardless of `use_knowledge_base` — prepend a synthesized
system message if none is present; an existing system message is left
unchanged (this handler has no augmentation branch). -/
def composeMessages_chat (st : KBState) (msgs : List Message) : List Message :=
  if st.kb_loaded then
    if !hasSystem msgs then
      { role := Role.system, content := create_system_prompt st } :: msgs
    else msgs
  else msgs

/-- Prompt composition of `POST /chat/simple` (handler `simple_chat`):
a single user message, with a synthesized system message prepended when
`use_kb and KB_LOADED`. -/
def composeMessages_simple (st : KBState) (use_kb : Option Bool)
    (message : String) : List Message :=
  if pyTruthyB use_kb && st.kb_loaded then
    [{ role := Role.system, content := create_system_prompt st },
     { role := Role.user, content := message }]
  else [{ role := Role.user, content := message }]

/-- Prompt composition of `POST /chat/kb` (handler
`chat_with_knowledge_base`): always a synthesized system message followed
by the user message. -/
def composeMessages_kb (st : KBState) (message : String) : List Message :=
  [{ role := Role.system, content := create_system_prompt st },
   { role := Role.user, content := message }]

/-- The outbound provider request: the arguments of
`client.chat.completions.create(model=..., messages=..., temperature=...,
max_tokens=...)`. -/
structure ProviderCall where
  model : String
  messages : List Message
  temperature : Option Rat
  max_tokens : Option Int
deriving DecidableEq

/-- Typed provider failures, mirroring the `openai` exception classes the
handlers catch; each carries its `str(e)` rendering. -/
inductive ProviderError where
  | authentication (msg : String) : ProviderError
  | rateLimit (msg : String) : ProviderError
  | badRequest (msg : String) : ProviderError
  | connection (msg : String) : ProviderError
  | statusError (status_code : Option Nat) (msg : String) : ProviderError
  | other (msg : String) : ProviderError
deriving DecidableEq

/-- `str(e)` of a provider exception. -/
def providerErrorStr : ProviderError → String
  | ProviderError.authentication m => m
  | ProviderError.rateLimit m => m
  | ProviderError.badRequest m => m
  | ProviderError.connection m => m
  | ProviderError.statusError _ m => m
  | ProviderError.other m => m

/-- Provider-reported token usage; each count is individually optional
(the spec treats the provider as opaque: any field may be absent). -/
structure Usage where
  prompt_tokens : Option Nat
  completion_tokens : Option Nat
  total_tokens : Option Nat
deriving DecidableEq

/-- A successful provider response: `choices[0].message.content` (possibly
`None`), the model the provider actually used, and the optional `usage`
object (`None` when the provider omits it). -/
structure ProviderResponse where
  content : Option String
  model : String
  usage : Option Usage
deriving DecidableEq

/-- The provider oracle: the single synchronous
`client.chat.completions.create` call, yielding a response or raising a
typed failure. -/
def Provider : Type :=
  ProviderCall → Except ProviderError ProviderResponse

/-- An `HTTPException` raised at the boundary: status code and detail. -/
structure HTTPError where
  status_code : Nat
  detail : String
deriving DecidableEq

/-- The `except` cascade shared verbatim by the `/chat`, `/chat/details`
and `/chat/kb` handlers: `AuthenticationError` → 401, `RateLimitError` →
429, `BadRequestError` → 400, `APIConnectionError` → 503,
`APIStatusError` → `e.status_code or 500`, any other exception → 500. -/
def mapProviderError : ProviderError → HTTPError
  | ProviderError.authentication _ => { status_code := 401, detail := "Invalid API key" }
  | ProviderError.rateLimit _ => { status_code := 429, detail := "Rate limit exceeded" }
  | ProviderError.badRequest m => { status_code := 400, detail := m }
  | ProviderError.connection m => { status_code := 503, detail := "Network error: " ++ m }
  | ProviderError.statusError c m => { status_code := pyOrNat c 500, detail := m }
  | ProviderError.other m => { status_code := 500, detail := "Internal server error: " ++ m }

/-- `str` of the `AttributeError` raised by `response.usage.prompt_tokens`
when the provider omitted the `usage` object (`usage` is `None`). -/
def usageNoneAttrMsg : String :=
  "\x27NoneType\x27 object has no attribute \x27prompt_tokens\x27"

/-- The usage dict built by direct attribute access
(`response.usage.prompt_tokens` etc. in `/chat` and `/chat/kb`): raises
`AttributeError` when `usage` is `None`. -/
def usageDirect (u : Option Usage) : Except String Usage :=
  match u with
  | none => Except.error usageNoneAttrMsg
  | some u => Except.ok u

/-- The usage dict built defensively in `/chat/details`:
`getattr(usage_obj, "prompt_tokens", None)` etc. never raises and yields
`None` for every field when `usage` is `None`. -/
def usageGetattr (u : Option Usage) : Usage :=
  match u with
  | none => { prompt_tokens := none, completion_tokens := none, total_tokens := none }
  | some u => u

/-- The outbound provider call built by `POST /chat` (`chat_endpoint`):
`model=request.model or "gpt-3.5-turbo"`, `temperature=request.temperature
or 0.7`, `max_tokens=request.max_tokens or 1500`. -/
def chat_endpoint_call (st : KBState) (req : ChatRequest) : ProviderCall :=
  { model := pyOrStr req.model "gpt-3.5-turbo"
    messages := composeMessages_chat st req.messages
    temperature := some (pyOrRat req.temperature (7 / 10))
    max_tokens := some (pyOrInt req.max_tokens 1500) }

/-- The outbound provider call built by `POST /chat/details` (`chat`):
`model=request.model or "gpt-3.5-turbo"`, temperature and max_tokens are
passed through as given (possibly `None`). -/
def chat_details_call (st : KBState) (req : ChatRequest) : ProviderCall :=
  { model := pyOrStr req.model "gpt-3.5-turbo"
    messages := injectKB_details st req.use_knowledge_base req.messages
    temperature := req.temperature
    max_tokens := req.max_tokens }

/-- The outbound provider call built by `POST /chat/kb`
(`chat_with_knowledge_base`): `model=model or "gpt-3.5-turbo"`, the query
parameters `temperature` and `max_tokens` passed through (their FastAPI
declaration defaults are `0.7` and `1500`). -/
def chat_kb_call (st : KBState) (message : String) (model : Option String)
    (temperature : Option Rat) (max_tokens : Option Int) : ProviderCall :=
  { model := pyOrStr model "gpt-3.5-turbo"
    messages := composeMessages_kb st message
    temperature := temperature
    max_tokens := max_tokens }

/-- The outbound provider call built by `POST /chat/simple` (`simple_chat`):
`model=model or "gpt-3.5-turbo"`, with `temperature=0.7` and
`max_tokens=1500` hard-coded in the handler. -/
def simple_chat_call (st : KBState) (message : String) (model : Option String)
    (use_kb : Option Bool) : ProviderCall :=
  { model := pyOrStr model "gpt-3.5-turbo"
    messages := composeMessages_simple st use_kb message
    temperature := some (7 / 10)
    max_tokens := some 1500 }

/-- Success body of `POST /chat` and `POST /chat/kb` (a plain dict). -/
structure ChatBody where
  response : String
  model : String
  knowledge_base_used : Bool
  usage : Usage
deriving DecidableEq

/-- `ChatResponse`, the response model of `POST /chat/details`.
`knowledge_base_used` is declared as a plain `bool`: pydantic rejects the
`None` that `request.use_knowledge_base and KB_LOADED` produces when the
caller sent `use_knowledge_base: null`, so a constructed body always
carries a real boolean. -/
structure ChatDetailsBody where
  response : String
  model : String
  usage : Usage
  knowledge_base_used : Bool
deriving DecidableEq

/-- Success body of `POST /chat/simple` (no usage reported). -/
structure SimpleBody where
  response : String
  model : String
  knowledge_base_used : Option Bool
deriving DecidableEq

/-- Handler of `POST /chat` (`chat_endpoint`): one provider call; on
success builds the body with direct usage attribute access (an omitted
usage object raises and falls into the catch-all 500); on a typed
provider failure raises the mapped `HTTPException`. -/
def run_chat_endpoint (st : KBState) (req : ChatRequest) (provider : Provider) :
    Except HTTPError ChatBody :=
  match provider (chat_endpoint_call st req) with
  | Except.ok resp =>
    match usageDirect resp.usage with
    | Except.error m =>
      Except.error { status_code := 500, detail := "Internal server error: " ++ m }
    | Except.ok u =>
      Except.ok { response := pyOrEmptyStr resp.content
                  model := resp.model
                  knowledge_base_used := st.kb_loaded
                  usage := u }
  | Except.error e => Except.error (mapProviderError e)

/-- `str` of the pydantic `ValidationError` raised while constructing
`ChatResponse(knowledge_base_used=None)`: the response model declares
`knowledge_base_used : bool` and rejects the `None` produced by
`request.use_knowledge_base and KB_LOADED` when the flag was `null`.
The exact wording stands in for pydantic's message; no theorem depends
on it beyond its being this fixed text. -/
def chatResponseValidationMsg : String :=
  "1 validation error for ChatResponse\nknowledge_base_used\n  none is not an allowed value (type=type_error.none.not_allowed)"

/-- Handler of `POST /chat/details` (`chat`): one provider call; on
success builds `ChatResponse` with defensive `getattr` usage access and
`knowledge_base_used = request.use_knowledge_base and KB_LOADED`.  When
that Python expression is `None` (flag sent as `null`), the
`ChatResponse` construction raises a pydantic `ValidationError` inside
the `try` and the catch-all maps it to 500.  On a typed provider failure
the handler raises the mapped `HTTPException`. -/
def run_chat_details (st : KBState) (req : ChatRequest) (provider : Provider) :
    Except HTTPError ChatDetailsBody :=
  match provider (chat_details_call st req) with
  | Except.ok resp =>
    match pyAnd req.use_knowledge_base st.kb_loaded with
    | none =>
      Except.error { status_code := 500,
                     detail := "Internal server error: " ++ chatResponseValidationMsg }
    | some kb_used =>
      Except.ok { response := pyOrEmptyStr resp.content
                  model := resp.model
                  usage := usageGetattr resp.usage
                  knowledge_base_used := kb_used }
  | Except.error e => Except.error (mapProviderError e)

/-- Handler of `POST /chat/kb` (`chat_with_knowledge_base`): one provider
call; on success builds the body with direct usage attribute access and
`knowledge_base_used = KB_LOADED`; failures map like `/chat`. -/
def run_chat_kb (st : KBState) (message : String) (model : Option String)
    (temperature : Option Rat) (max_tokens : Option Int) (provider : Provider) :
    Except HTTPError ChatBody :=
  match provider (chat_kb_call st message model temperature max_tokens) with
  | Except.ok resp =>
    match usageDirect resp.usage with
    | Except.error m =>
      Except.error { status_code := 500, detail := "Internal server error: " ++ m }
    | Except.ok u =>
      Except.ok { response := pyOrEmptyStr resp.content
                  model := resp.model
                  knowledge_base_used := st.kb_loaded
                  usage := u }
  | Except.error e => Except.error (mapProviderError e)

/-- Handler of `POST /chat/simple` (`simple_chat`): one provider call; its
only handler is `except Exception as e: HTTPException(500, str(e))`, so
every provider failure — whatever its kind — becomes a 500. -/
def run_simple_chat (st : KBState) (message : String) (model : Option String)
    (use_kb : Option Bool) (provider : Provider) :
    Except HTTPError SimpleBody :=
  match provider (simple_chat_call st message model use_kb) with
  | Except.ok resp =>
    Except.ok { response := pyOrEmptyStr resp.content
                model := resp.model
                knowledge_base_used := pyAnd use_kb st.kb_loaded }
  | Except.error e =>
    Except.error { status_code := 500, detail := providerErrorStr e }

/-- Success body of `GET /knowledge-base/category/{name}`. -/
structure CategoryBody where
  category : String
  data : Json

/-- The Python repr of a list of strings,
`{list(categories.keys())}` inside the 404 f-string. -/
def pyStrListRepr (xs : List String) : String :=
  "[" ++ String.intercalate ", " (xs.map (fun s => "\x27" ++ s ++ "\x27")) ++ "]"

/-- The 404 detail of `get_category`:
`f"Category '{category_name}' not found. Available: {list(categories.keys())}"`. -/
def categoryNotFoundDetail (category_name : String) (keys : List String) : String :=
  "Category \x27" ++ category_name ++ "\x27 not found. Available: " ++ pyStrListRepr keys

/-- Handler of `GET /knowledge-base/category/{category_name}`
(`get_category`): 503 when the store is not loaded; otherwise look up
`KNOWLEDGE_BASE.get("knowledge_base", {}).get("categories", {})`, answer
404 (listing the available keys) for an absent category and the category
data for a present one.  An unhandled Python exception on a non-dict
document surfaces as a framework 500. -/
def get_category (st : KBState) (category_name : String) :
    Except HTTPError CategoryBody :=
  if !st.kb_loaded then
    Except.error { status_code := 503, detail := "Knowledge base not loaded" }
  else
    match (st.knowledge_base.pyDictGet "knowledge_base" (Json.obj [])).bind
            (fun kb => kb.pyDictGet "categories" (Json.obj [])) with
    | Except.error m => Except.error { status_code := 500, detail := m }
    | Except.ok (Json.obj cats) =>
      match cats.lookup category_name with
      | some v => Except.ok { category := category_name, data := v }
      | none =>
        Except.error { status_code := 404,
                       detail := categoryNotFoundDetail category_name (cats.map Prod.fst) }
    | Except.ok _ => Except.error { status_code := 500, detail := "TypeError" }

/-- A message as it arrives on the wire, before pydantic validation. -/
structure RawMessage where
  role : String
  content : String
deriving DecidableEq

/-- Pydantic validation of the `role: Literal["user", "assistant",
"system"]` annotation of `Message`: any other string is rejected. -/
def parseRole (r : String) : Option Role :=
  if r = "user" then some Role.user
  else if r = "assistant" then some Role.assistant
  else if r = "system" then some Role.system
  else none

/-- Pydantic validation of the `messages` list of `ChatRequest`: succeeds
only when every message role is in the `Literal` enum. -/
def validateMessages : List RawMessage → Option (List Message)
  | [] => some []
  | m :: rest =>
    match parseRole m.role, validateMessages rest with
    | some r, some ms => some ({ role := r, content := m.content } :: ms)
    | _, _ => none

/-- The 422 response FastAPI produces when pydantic request validation
fails, before the handler body runs. -/
def validationError : HTTPError :=
  { status_code := 422, detail := "Unprocessable Entity" }

/-- `POST /chat` including FastAPI request validation: the handler (and
hence the provider call) runs only if every message role validates. -/
def run_chat_endpoint_validated (st : KBState) (raw : List RawMessage)
    (model : Option String) (temperature : Option Rat) (max_tokens : Option Int)
    (use_knowledge_base : Option Bool) (provider : Provider) :
    Except HTTPError ChatBody :=
  match validateMessages raw with
  | none => Except.error validationError
  | some msgs =>
    run_chat_endpoint st
      { messages := msgs, model := model, temperature := temperature,
        max_tokens := max_tokens, use_knowledge_base := use_knowledge_base }
      provider

/-- `POST /chat/details` including FastAPI request validation. -/
def run_chat_details_validated (st : KBState) (raw : List RawMessage)
    (model : Option String) (temperature : Option Rat) (max_tokens : Option Int)
    (use_knowledge_base : Option Bool) (provider : Provider) :
    Except HTTPError ChatDetailsBody :=
  match validateMessages raw with
  | none => Except.error validationError
  | some msgs =>
    run_chat_details st
      { messages := msgs, model := model, temperature := temperature,
        max_tokens := max_tokens, use_knowledge_base := use_knowledge_base }
      provider

/-! ## Helper lemmas -/

/-- A list with no system message has zero system messages. -/
theorem countSystem_eq_zero_of_no_system (msgs : List Message)
    (h : hasSystem msgs = false) : countSystem msgs = 0 := by
  rw [countSystem, List.countP_eq_zero]
  rw [hasSystem, List.any_eq_false] at h
  exact h

/-- `enhanceFirstSystem` walks past a system-free prefix untouched. -/
theorem enhanceFirstSystem_append (st : KBState) (pre : List Message)
    (m : Message) (post : List Message) (hpre : hasSystem pre = false) :
    enhanceFirstSystem st (pre ++ m :: post) =
      pre ++ enhanceFirstSystem st (m :: post) := by
  induction pre with
  | nil => rfl
  | cons a rest ih =>
    rw [hasSystem, List.any_cons, Bool.or_eq_false_iff] at hpre
    rw [List.cons_append, enhanceFirstSystem, if_neg (by simp [hpre.1]),
      ih hpre.2, List.cons_append]

/-- `enhanceFirstSystem` preserves the number of system messages: it only
rewrites the content of the first system message it meets. -/
theorem countSystem_enhanceFirstSystem (st : KBState) (msgs : List Message) :
    countSystem (enhanceFirstSystem st msgs) = countSystem msgs := by
  simp only [countSystem]
  induction msgs with
  | nil => rfl
  | cons m rest ih =>
    by_cases hm : (m.role == Role.system) = true
    · rw [enhanceFirstSystem, if_pos hm]
      by_cases hc : (st.kb_loaded && st.knowledge_base.pyTruthy) = true
      · rw [if_pos hc, List.countP_cons, List.countP_cons]
      · rw [if_neg hc]
    · rw [enhanceFirstSystem, if_neg hm, List.countP_cons, List.countP_cons, ih]

/-- A list with a system message somewhere satisfies `hasSystem`. -/
theorem hasSystem_append_system (pre : List Message) (m : Message)
    (post : List Message) (hm : m.role = Role.system) :
    hasSystem (pre ++ m :: post) = true := by
  rw [hasSystem, List.any_append, List.any_cons]
  simp [hm]

/-- The synthesized system prompt is the persona text followed by the
rendered knowledge context. -/
theorem create_system_prompt_eq (st : KBState) :
    create_system_prompt st = base_prompt ++ kbContextSuffix st := by
  rw [create_system_prompt, kbContextSuffix]
  by_cases hc : (st.kb_loaded && st.knowledge_base.pyTruthy) = true
  · rw [if_pos hc, if_pos hc]
  · rw [if_neg hc, if_neg hc, String.append_empty]

/-- A request list on which pydantic rejects some role never validates. -/
theorem validateMessages_eq_none (raw : List RawMessage)
    (h : raw.any (fun m => (parseRole m.role).isNone) = true) :
    validateMessages raw = none := by
  induction raw with
  | nil => simp at h
  | cons m rest ih =>
    rw [List.any_cons, Bool.or_eq_true] at h
    cases h with
    | inl h1 =>
      rw [validateMessages]
      rw [Option.isNone_iff_eq_none] at h1
      rw [h1]
    | inr h2 =>
      rw [validateMessages, ih h2]
      cases parseRole m.role <;> rfl

/-! ## Shared example values -/

/-- A small knowledge document with the two categories of the spec's
scenario. -/
def docEx : Json :=
  Json.obj [("knowledge_base",
    Json.obj [("categories",
      Json.obj [("setup", Json.str "s"), ("billing", Json.str "b")])])]

/-- A store that has successfully loaded `docEx`. -/
def stLoaded : KBState := { knowledge_base := docEx, kb_loaded := true }

/-- The initial, unloaded store. -/
def stUnloaded : KBState := {}

/-- A provider-reported usage object with all three counts present. -/
def usageEx : Usage :=
  { prompt_tokens := some 1, completion_tokens := some 2, total_tokens := some 3 }

/-- A successful provider response. -/
def respEx : ProviderResponse :=
  { content := some "Hi", model := "gpt-3.5-turbo-0125", usage := some usageEx }

/-- A provider that always answers `respEx`. -/
def providerOk : Provider := fun _ => Except.ok respEx

/-- A single user message. -/
def msgU : Message := { role := Role.user, content := "Hello" }

/-! ## Claim theorems -/

/-- C3: on both conversation-accepting endpoints, the provider-bound
message list never gains a duplicate system message: when the caller
supplied any system message (first, not first, or several), the number of
system messages is preserved exactly; when the caller supplied none, a
single synthesized system message is prepended — and only when injection
is enabled and the store is loaded — so the outbound list has at most one
(leading) system message. -/
theorem system_message_never_duplicated (st : KBState) (u : Option Bool)
    (msgs : List Message) :
    (hasSystem msgs = true →
      countSystem (composeMessages_chat st msgs) = countSystem msgs ∧
      countSystem (injectKB_details st u msgs) = countSystem msgs) ∧
    (hasSystem msgs = false →
      composeMessages_chat st msgs =
        (if st.kb_loaded then
          [{ role := Role.system, content := create_system_prompt st }]
         else []) ++ msgs ∧
      injectKB_details st u msgs =
        (if pyTruthyB u && st.kb_loaded then
          [{ role := Role.system, content := create_system_prompt st }]
         else []) ++ msgs ∧
      countSystem (composeMessages_chat st msgs) ≤ 1 ∧
      countSystem (injectKB_details st u msgs) ≤ 1) := by
  constructor
  · intro hsys
    constructor
    · rw [composeMessages_chat]
      by_cases hl : st.kb_loaded = true
      · rw [if_pos hl, hsys]
        rfl
      · rw [if_neg hl]
    · rw [injectKB_details]
      by_cases hf : (pyTruthyB u && st.kb_loaded) = true
      · rw [if_pos hf, hsys]
        exact countSystem_enhanceFirstSystem st msgs
      · rw [if_neg hf]
  · intro hsys
    have hz : countSystem msgs = 0 := countSystem_eq_zero_of_no_system msgs hsys
    have hchat : composeMessages_chat st msgs =
        (if st.kb_loaded then
          [{ role := Role.system, content := create_system_prompt st }]
         else []) ++ msgs := by
      rw [composeMessages_chat]
      by_cases hl : st.kb_loaded = true
      · rw [if_pos hl, if_pos hl, hsys]
        rfl
      · rw [if_neg hl, if_neg hl]
        rfl
    have hdet : injectKB_details st u msgs =
        (if pyTruthyB u && st.kb_loaded then
          [{ role := Role.system, content := create_system_prompt st }]
         else []) ++ msgs := by
      rw [injectKB_details]
      by_cases hf : (pyTruthyB u && st.kb_loaded) = true
      · rw [if_pos hf, if_pos hf, hsys]
        rfl
      · rw [if_neg hf, if_neg hf]
        rfl
    refine ⟨hchat, hdet, ?_, ?_⟩
    · rw [hchat]
      by_cases hl : st.kb_loaded = true
      · rw [if_pos hl, List.singleton_append, countSystem, List.countP_cons]
        rw [countSystem] at hz
        simp [hz]
      · rw [if_neg hl, List.nil_append, hz]
        exact Nat.zero_le 1
    · rw [hdet]
      by_cases hf : (pyTruthyB u && st.kb_loaded) = true
      · rw [if_pos hf, List.singleton_append, countSystem, List.countP_cons]
        rw [countSystem] at hz
        simp [hz]
      · rw [if_neg hf, List.nil_append, hz]
        exact Nat.zero_le 1

/-- C3 witness: a caller-supplied conversation with two system messages,
one of them not first, gains no further system message on either
endpoint. -/
theorem system_message_never_duplicated_witness :
    hasSystem [{ role := Role.user, content := "u" },
               { role := Role.system, content := "a" },
               { role := Role.system, content := "b" }] = true ∧
    countSystem (composeMessages_chat stLoaded
        [{ role := Role.user, content := "u" },
         { role := Role.system, content := "a" },
         { role := Role.system, content := "b" }]) =
      countSystem [{ role := Role.user, content := "u" },
                   { role := Role.system, content := "a" },
                   { role := Role.system, content := "b" }] ∧
    countSystem (injectKB_details stLoaded (some true)
        [{ role := Role.user, content := "u" },
         { role := Role.system, content := "a" },
         { role := Role.system, content := "b" }]) =
      countSystem [{ role := Role.user, content := "u" },
                   { role := Role.system, content := "a" },
                   { role := Role.system, content := "b" }] :=
  ⟨by decide,
   ((system_message_never_duplicated stLoaded (some true)
      [{ role := Role.user, content := "u" },
       { role := Role.system, content := "a" },
       { role := Role.system, content := "b" }]).1 (by decide)).1,
   ((system_message_never_duplicated stLoaded (some true)
      [{ role := Role.user, content := "u" },
       { role := Role.system, content := "a" },
       { role := Role.system, content := "b" }]).1 (by decide)).2⟩

/-- C8: for a conversation without a system message, with the flag true
and the store loaded, every injecting endpoint prepends exactly one
synthesized system message — the fixed persona template followed by the
rendered knowledge context — and leaves the caller's messages, and their
order, unchanged after it. -/
theorem synthesized_system_prepended (st : KBState) (msgs : List Message)
    (message : String) (hload : st.kb_loaded = true)
    (hsys : hasSystem msgs = false) :
    injectKB_details st (some true) msgs =
      { role := Role.system, content := create_system_prompt st } :: msgs ∧
    composeMessages_chat st msgs =
      { role := Role.system, content := create_system_prompt st } :: msgs ∧
    composeMessages_simple st (some true) message =
      [{ role := Role.system, content := create_system_prompt st },
       { role := Role.user, content := message }] ∧
    composeMessages_kb st message =
      [{ role := Role.system, content := create_system_prompt st },
       { role := Role.user, content := message }] ∧
    create_system_prompt st = base_prompt ++ kbContextSuffix st := by
  refine ⟨?_, ?_, ?_, rfl, create_system_prompt_eq st⟩
  · rw [injectKB_details, hload, hsys]
    rfl
  · rw [composeMessages_chat, hload, hsys]
    rfl
  · rw [composeMessages_simple, hload]
    rfl

/-- C8 witness: a two-message user/assistant conversation under the
loaded example store. -/
theorem synthesized_system_prepended_witness :
    stLoaded.kb_loaded = true ∧
    hasSystem [{ role := Role.user, content := "u" },
               { role := Role.assistant, content := "a" }] = false ∧
    injectKB_details stLoaded (some true)
        [{ role := Role.user, content := "u" },
         { role := Role.assistant, content := "a" }] =
      { role := Role.system, content := create_system_prompt stLoaded } ::
        [{ role := Role.user, content := "u" },
         { role := Role.assistant, content := "a" }] ∧
    composeMessages_chat stLoaded
        [{ role := Role.user, content := "u" },
         { role := Role.assistant, content := "a" }] =
      { role := Role.system, content := create_system_prompt stLoaded } ::
        [{ role := Role.user, content := "u" },
         { role := Role.assistant, content := "a" }] :=
  ⟨rfl, by decide,
   (synthesized_system_prepended stLoaded
      [{ role := Role.user, content := "u" },
       { role := Role.assistant, content := "a" }] "m" rfl (by decide)).1,
   (synthesized_system_prepended stLoaded
      [{ role := Role.user, content := "u" },
       { role := Role.assistant, content := "a" }] "m" rfl (by decide)).2.1⟩

/-- C2 counterexample: on `POST /chat`, a conversation that already has a
system message is forwarded with that system message unchanged — the
rendered knowledge context (which is nonempty for the loaded example
store) is not appended, contradicting the claim that both endpoints
append it. -/
theorem chat_existing_system_unchanged_cex :
    composeMessages_chat stLoaded
        [{ role := Role.system, content := "S" },
         { role := Role.user, content := "U" }] =
      [{ role := Role.system, content := "S" },
       { role := Role.user, content := "U" }] ∧
    kbContextSuffix stLoaded ≠ "" :=
  ⟨rfl, by decide⟩

/-- C2 amended: on `POST /chat/details`, when the flag is true, the store
is loaded with a truthy document and the conversation contains a system
message, the first system message gets the rendered knowledge context
appended to its original content (original text first, context second),
no system message is added or removed, and the order of all messages is
preserved; on `POST /chat` the conversation is forwarded completely
unchanged in this situation. -/
theorem existing_system_enhanced_details_only (st : KBState) (u : Option Bool)
    (pre post : List Message) (m : Message) (hu : u = some true)
    (hload : st.kb_loaded = true) (hdoc : st.knowledge_base.pyTruthy = true)
    (hpre : hasSystem pre = false) (hm : m.role = Role.system) :
    injectKB_details st u (pre ++ m :: post) =
      pre ++ { m with content := m.content ++ kbContextSuffix st } :: post ∧
    countSystem (injectKB_details st u (pre ++ m :: post)) =
      countSystem (pre ++ m :: post) ∧
    kbContextSuffix st =
      "\n\nKnowledge Base Context:\n" ++ st.knowledge_base.dumps ∧
    composeMessages_chat st (pre ++ m :: post) = pre ++ m :: post := by
  have hcond : (st.kb_loaded && st.knowledge_base.pyTruthy) = true := by
    rw [hload, hdoc]
    rfl
  have hctx : kbContextSuffix st =
      "\n\nKnowledge Base Context:\n" ++ st.knowledge_base.dumps := by
    rw [kbContextSuffix, if_pos hcond]
  have hany : hasSystem (pre ++ m :: post) = true :=
    hasSystem_append_system pre m post hm
  refine ⟨?_, ?_, hctx, ?_⟩
  · rw [injectKB_details, hu, hload, hany]
    show enhanceFirstSystem st (pre ++ m :: post) = _
    rw [enhanceFirstSystem_append st pre m post hpre, enhanceFirstSystem,
      if_pos (by simp [hm]), if_pos hcond, hctx]
  · rw [injectKB_details, hu, hload, hany]
    show countSystem (enhanceFirstSystem st (pre ++ m :: post)) = _
    exact countSystem_enhanceFirstSystem st (pre ++ m :: post)
  · rw [composeMessages_chat, hload, hany]
    rfl

/-- C2 amended witness: a conversation `[user, system, user]` under the
loaded example store. -/
theorem existing_system_enhanced_details_only_witness :
    stLoaded.kb_loaded = true ∧
    stLoaded.knowledge_base.pyTruthy = true ∧
    hasSystem [{ role := Role.user, content := "u1" }] = false ∧
    injectKB_details stLoaded (some true)
        ([{ role := Role.user, content := "u1" }] ++
          { role := Role.system, content := "S" } ::
            [{ role := Role.user, content := "u2" }]) =
      [{ role := Role.user, content := "u1" }] ++
        { role := Role.system,
          content := "S" ++ kbContextSuffix stLoaded } ::
          [{ role := Role.user, content := "u2" }] :=
  ⟨rfl, by decide, by decide,
   (existing_system_enhanced_details_only stLoaded (some true)
      [{ role := Role.user, content := "u1" }]
      [{ role := Role.user, content := "u2" }]
      { role := Role.system, content := "S" }
      rfl rfl (by decide) (by decide) rfl).1⟩

/-- C1 counterexample: on `POST /chat`, with the store loaded and
`use_knowledge_base` explicitly false, the successful outcome still
reports `knowledge_base_used = true` — the handler returns `KB_LOADED`
and ignores the flag, so the claimed iff fails on that endpoint. -/
theorem chat_kb_used_ignores_flag_cex :
    ({ messages := [msgU], use_knowledge_base := some false } :
        ChatRequest).use_knowledge_base = some false ∧
    (run_chat_endpoint stLoaded
        { messages := [msgU], use_knowledge_base := some false }
        providerOk).map (fun b => b.knowledge_base_used) =
      Except.ok true :=
  ⟨rfl, rfl⟩

/-- C1 amended: on `POST /chat/details`, when the caller's flag is an
actual boolean, the successful outcome reports `knowledge_base_used =
flag AND KB_LOADED`, which equals true iff the flag was true and the
store was loaded at call time; when the caller sent the flag as `null`,
the `ChatResponse` validation rejects the resulting `None` and the
request fails with 500 instead of a success body.  On `POST /chat` the
successful outcome reports `knowledge_base_used = KB_LOADED` regardless
of the flag. -/
theorem kb_used_flag_semantics (st : KBState) (req : ChatRequest)
    (provider : Provider) (resp resp2 : ProviderResponse) (u : Usage)
    (b : Bool)
    (h1 : provider (chat_details_call st req) = Except.ok resp)
    (h2 : provider (chat_endpoint_call st req) = Except.ok resp2)
    (h3 : resp2.usage = some u) :
    (req.use_knowledge_base = some b →
      (run_chat_details st req provider).map
          (fun x => x.knowledge_base_used) =
        Except.ok (b && st.kb_loaded)) ∧
    ((b && st.kb_loaded) = true ↔ b = true ∧ st.kb_loaded = true) ∧
    (req.use_knowledge_base = none →
      run_chat_details st req provider =
        Except.error { status_code := 500,
                       detail := "Internal server error: " ++
                         chatResponseValidationMsg }) ∧
    (run_chat_endpoint st req provider).map (fun x => x.knowledge_base_used) =
      Except.ok st.kb_loaded := by
  refine ⟨?_, iff_of_eq (Bool.and_eq_true b st.kb_loaded), ?_, ?_⟩
  · intro hb
    rw [run_chat_details, h1, hb]
    cases b <;> rfl
  · intro hn
    rw [run_chat_details, h1, hn]
    rfl
  · simp [run_chat_endpoint, h2, h3, usageDirect, Except.map]

/-- C1 amended witness: the loaded example store with the example
provider, once with the default flag (true) and once with the flag sent
as `null`. -/
theorem kb_used_flag_semantics_witness :
    ({ messages := [msgU] } : ChatRequest).use_knowledge_base = some true ∧
    ({ messages := [msgU], use_knowledge_base := none } :
      ChatRequest).use_knowledge_base = none ∧
    (run_chat_details stLoaded { messages := [msgU] } providerOk).map
        (fun x => x.knowledge_base_used) =
      Except.ok (true && stLoaded.kb_loaded) ∧
    run_chat_details stLoaded
        { messages := [msgU], use_knowledge_base := none } providerOk =
      Except.error { status_code := 500,
                     detail := "Internal server error: " ++
                       chatResponseValidationMsg } ∧
    (run_chat_endpoint stLoaded { messages := [msgU] } providerOk).map
        (fun x => x.knowledge_base_used) =
      Except.ok stLoaded.kb_loaded :=
  ⟨rfl, rfl,
   (kb_used_flag_semantics stLoaded { messages := [msgU] } providerOk
      respEx respEx usageEx true rfl rfl rfl).1 rfl,
   (kb_used_flag_semantics stLoaded
      { messages := [msgU], use_knowledge_base := none } providerOk
      respEx respEx usageEx true rfl rfl rfl).2.2.1 rfl,
   (kb_used_flag_semantics stLoaded { messages := [msgU] } providerOk
      respEx respEx usageEx true rfl rfl rfl).2.2.2⟩

/-- C5 counterexample: after a failed reload (file absent) on a loaded
store, `isLoaded` flips from true to false and the rendered prompt
context collapses from the nonempty document context to empty — the
prior loaded behavior is not left intact. -/
theorem failed_reload_not_intact_cex :
    (load_knowledge_base stLoaded LoadResult.fileNotFound).kb_loaded =
      false ∧
    stLoaded.kb_loaded = true ∧
    kbContextSuffix (load_knowledge_base stLoaded LoadResult.fileNotFound) =
      "" ∧
    kbContextSuffix stLoaded ≠ "" :=
  ⟨rfl, rfl, rfl, by decide⟩

/-- C5 amended: a successful reload atomically replaces the whole
document and marks the store loaded; a failed reload (file absent or
parse error) leaves the stored document bytes unchanged but marks the
store unloaded, so `isLoaded` becomes false and the rendered prompt
context becomes empty — the store is never left partially updated, but a
previously loaded store does not keep behaving as loaded. -/
theorem reload_state_transitions (prev : KBState) (d : Json) (m : String) :
    load_knowledge_base prev (LoadResult.ok d) =
      { knowledge_base := d, kb_loaded := true } ∧
    load_knowledge_base prev LoadResult.fileNotFound =
      { prev with kb_loaded := false } ∧
    load_knowledge_base prev (LoadResult.parseError m) =
      { prev with kb_loaded := false } ∧
    kbContextSuffix { prev with kb_loaded := false } = "" ∧
    (reload_knowledge_base prev LoadResult.fileNotFound).2.success =
      false ∧
    (reload_knowledge_base prev (LoadResult.ok d)).2.success = true :=
  ⟨rfl, rfl, rfl, rfl, rfl, rfl⟩

/-- C6 counterexample: on `POST /chat/simple` an authentication failure
from the provider is answered with status 500, not the claimed 401 — the
handler's only `except` clause is the catch-all `Exception → 500`. -/
theorem simple_chat_auth_maps_to_500_cex :
    run_simple_chat stUnloaded "hi" none none
        (fun _ => Except.error (ProviderError.authentication "auth failed")) =
      Except.error { status_code := 500, detail := "auth failed" } ∧
    (500 : Nat) ≠ 401 :=
  ⟨rfl, by decide⟩

/-- C6 amended: each provider failure is mapped synchronously, with a
single provider call and no retry, to its typed HTTP status on `/chat`,
`/chat/details` and `/chat/kb` (401 auth, 429 rate limit, 400 invalid
request, 503 network, provider status or 500 fallback, 500 otherwise);
on `POST /chat/simple` every provider failure of any kind maps to 500
with `str(e)` as detail. -/
theorem provider_error_mapping (st : KBState) (req : ChatRequest)
    (message s : String) (model : Option String) (temperature : Option Rat)
    (max_tokens : Option Int) (u : Option Bool) (e : ProviderError)
    (c : Nat) :
    run_chat_endpoint st req (fun _ => Except.error e) =
      Except.error (mapProviderError e) ∧
    run_chat_details st req (fun _ => Except.error e) =
      Except.error (mapProviderError e) ∧
    run_chat_kb st message model temperature max_tokens
        (fun _ => Except.error e) =
      Except.error (mapProviderError e) ∧
    run_simple_chat st message model u (fun _ => Except.error e) =
      Except.error { status_code := 500, detail := providerErrorStr e } ∧
    mapProviderError (ProviderError.authentication s) =
      { status_code := 401, detail := "Invalid API key" } ∧
    mapProviderError (ProviderError.rateLimit s) =
      { status_code := 429, detail := "Rate limit exceeded" } ∧
    mapProviderError (ProviderError.badRequest s) =
      { status_code := 400, detail := s } ∧
    mapProviderError (ProviderError.connection s) =
      { status_code := 503, detail := "Network error: " ++ s } ∧
    mapProviderError (ProviderError.statusError (some (c + 1)) s) =
      { status_code := c + 1, detail := s } ∧
    mapProviderError (ProviderError.statusError none s) =
      { status_code := 500, detail := s } ∧
    mapProviderError (ProviderError.other s) =
      { status_code := 500, detail := "Internal server error: " ++ s } := by
  refine ⟨rfl, rfl, rfl, rfl, rfl, rfl, rfl, rfl, ?_, rfl, rfl⟩
  simp [mapProviderError, pyOrNat]

/-- C7 counterexample: on `POST /chat` a successful provider reply whose
usage object is omitted does not yield a successful outcome — the direct
attribute access raises and the request fails with 500. -/
theorem chat_missing_usage_errors_cex :
    run_chat_endpoint stUnloaded { messages := [msgU] }
        (fun _ => Except.ok { content := some "Hi", model := "m", usage := none }) =
      Except.error { status_code := 500,
                     detail := "Internal server error: " ++ usageNoneAttrMsg } :=
  rfl

/-- C7 amended: on every successful provider reply, every endpoint
substitutes empty text for missing content and reports the provider's own
model name; the three usage counts are tolerated as individually optional
only on `/chat/details` (defensive `getattr` — for requests whose
`use_knowledge_base` flag is an actual boolean, a `null` flag failing
response validation independently of usage) and trivially on
`/chat/simple` (usage never read) — on `/chat` and `/chat/kb` a provider
response omitting the whole usage object raises and maps to 500 instead
of a successful outcome, while a present usage object with individually
missing counts succeeds everywhere. -/
theorem usage_optionality (st : KBState) (req : ChatRequest)
    (message : String) (model : Option String) (temperature : Option Rat)
    (max_tokens : Option Int) (ukb : Option Bool) (c : Option String)
    (mdl : String) (us : Usage) (anyU : Option Usage) (b : Bool)
    (hq : req.use_knowledge_base = some b) :
    run_chat_details st req
        (fun _ => Except.ok { content := c, model := mdl, usage := none }) =
      Except.ok { response := pyOrEmptyStr c, model := mdl,
                  usage := { prompt_tokens := none, completion_tokens := none,
                             total_tokens := none },
                  knowledge_base_used := (b && st.kb_loaded) } ∧
    run_chat_details st req
        (fun _ => Except.ok { content := c, model := mdl, usage := some us }) =
      Except.ok { response := pyOrEmptyStr c, model := mdl, usage := us,
                  knowledge_base_used := (b && st.kb_loaded) } ∧
    run_chat_endpoint st req
        (fun _ => Except.ok { content := c, model := mdl, usage := none }) =
      Except.error { status_code := 500,
                     detail := "Internal server error: " ++ usageNoneAttrMsg } ∧
    run_chat_endpoint st req
        (fun _ => Except.ok { content := c, model := mdl, usage := some us }) =
      Except.ok { response := pyOrEmptyStr c, model := mdl,
                  knowledge_base_used := st.kb_loaded, usage := us } ∧
    run_chat_kb st message model temperature max_tokens
        (fun _ => Except.ok { content := c, model := mdl, usage := none }) =
      Except.error { status_code := 500,
                     detail := "Internal server error: " ++ usageNoneAttrMsg } ∧
    run_chat_kb st message model temperature max_tokens
        (fun _ => Except.ok { content := c, model := mdl, usage := some us }) =
      Except.ok { response := pyOrEmptyStr c, model := mdl,
                  knowledge_base_used := st.kb_loaded, usage := us } ∧
    run_simple_chat st message model ukb
        (fun _ => Except.ok { content := c, model := mdl, usage := anyU }) =
      Except.ok { response := pyOrEmptyStr c, model := mdl,
                  knowledge_base_used := pyAnd ukb st.kb_loaded } ∧
    pyOrEmptyStr none = "" := by
  refine ⟨?_, ?_, rfl, rfl, rfl, rfl, rfl, rfl⟩
  · rw [run_chat_details, hq]
    cases b <;> rfl
  · rw [run_chat_details, hq]
    cases b <;> rfl

/-- C7 amended witness: the loaded example store with the default flag
(true); `/chat/details` succeeds with null counts when the usage object
is omitted, while `/chat` answers 500 on the same reply. -/
theorem usage_optionality_witness :
    ({ messages := [msgU] } : ChatRequest).use_knowledge_base = some true ∧
    run_chat_details stLoaded { messages := [msgU] }
        (fun _ => Except.ok { content := some "Hi", model := "m", usage := none }) =
      Except.ok { response := pyOrEmptyStr (some "Hi"), model := "m",
                  usage := { prompt_tokens := none, completion_tokens := none,
                             total_tokens := none },
                  knowledge_base_used := (true && stLoaded.kb_loaded) } ∧
    run_chat_endpoint stLoaded { messages := [msgU] }
        (fun _ => Except.ok { content := some "Hi", model := "m", usage := none }) =
      Except.error { status_code := 500,
                     detail := "Internal server error: " ++ usageNoneAttrMsg } :=
  ⟨rfl,
   (usage_optionality stLoaded { messages := [msgU] } "hi" none none none
      none (some "Hi") "m" usageEx none true rfl).1,
   (usage_optionality stLoaded { messages := [msgU] } "hi" none none none
      none (some "Hi") "m" usageEx none true rfl).2.2.1⟩

/-- C9: `GET /knowledge-base/category/{name}` answers 503 for every
category name while the store is unloaded; with the store loaded and the
categories dict available, an absent name gets 404 with the list of valid
category names embedded in the detail, and a present name gets its data
back. -/
theorem get_category_behavior (st : KBState) (name : String)
    (cats : List (String × Json)) (v : Json) :
    (st.kb_loaded = false →
      get_category st name =
        Except.error { status_code := 503,
                       detail := "Knowledge base not loaded" }) ∧
    (st.kb_loaded = true →
      (st.knowledge_base.pyDictGet "knowledge_base" (Json.obj [])).bind
          (fun kb => kb.pyDictGet "categories" (Json.obj [])) =
        Except.ok (Json.obj cats) →
      (cats.lookup name = none →
        get_category st name =
          Except.error { status_code := 404,
                         detail := categoryNotFoundDetail name
                           (cats.map Prod.fst) }) ∧
      (cats.lookup name = some v →
        get_category st name = Except.ok { category := name, data := v })) := by
  constructor
  · intro h
    rw [get_category, h]
    rfl
  · intro hl hcats
    constructor
    · intro hnone
      rw [get_category, hl]
      simp [hcats, hnone]
    · intro hsome
      rw [get_category, hl]
      simp [hcats, hsome]

/-- C9 witness: the loaded example store answers 404 for the unknown
category `"unknown"`, listing `setup` and `billing`, and returns the data
of `"setup"`. -/
theorem get_category_behavior_witness :
    stLoaded.kb_loaded = true ∧
    (stLoaded.knowledge_base.pyDictGet "knowledge_base" (Json.obj [])).bind
        (fun kb => kb.pyDictGet "categories" (Json.obj [])) =
      Except.ok (Json.obj [("setup", Json.str "s"), ("billing", Json.str "b")]) ∧
    ([("setup", Json.str "s"), ("billing", Json.str "b")].lookup "unknown" =
      (none : Option Json)) ∧
    get_category stLoaded "unknown" =
      Except.error { status_code := 404,
                     detail := categoryNotFoundDetail "unknown"
                       ([("setup", Json.str "s"),
                         ("billing", Json.str "b")].map Prod.fst) } ∧
    get_category stLoaded "setup" =
      Except.ok { category := "setup", data := Json.str "s" } :=
  ⟨rfl, rfl, rfl,
   ((get_category_behavior stLoaded "unknown"
      [("setup", Json.str "s"), ("billing", Json.str "b")] Json.null).2
      rfl rfl).1 rfl,
   ((get_category_behavior stLoaded "setup"
      [("setup", Json.str "s"), ("billing", Json.str "b")] (Json.str "s")).2
      rfl rfl).2 rfl⟩

/-- C10: a request containing any message whose role is outside the
`Literal["user", "assistant", "system"]` enum fails pydantic validation,
so both conversation-accepting endpoints answer 422 without the handler
running — the result is the same for every provider, i.e. no conversation
with an out-of-enum role is ever forwarded. -/
theorem invalid_role_rejected_before_provider (st : KBState)
    (raw : List RawMessage) (model : Option String) (temperature : Option Rat)
    (max_tokens : Option Int) (ukb : Option Bool)
    (provider provider2 : Provider)
    (h : raw.any (fun m => (parseRole m.role).isNone) = true) :
    validateMessages raw = none ∧
    run_chat_endpoint_validated st raw model temperature max_tokens ukb
        provider = Except.error validationError ∧
    run_chat_details_validated st raw model temperature max_tokens ukb
        provider = Except.error validationError ∧
    run_chat_endpoint_validated st raw model temperature max_tokens ukb
        provider =
      run_chat_endpoint_validated st raw model temperature max_tokens ukb
        provider2 ∧
    run_chat_details_validated st raw model temperature max_tokens ukb
        provider =
      run_chat_details_validated st raw model temperature max_tokens ukb
        provider2 := by
  have hv : validateMessages raw = none := validateMessages_eq_none raw h
  refine ⟨hv, ?_, ?_, ?_, ?_⟩
  · simp only [run_chat_endpoint_validated, hv]
  · simp only [run_chat_details_validated, hv]
  · simp only [run_chat_endpoint_validated, hv]
  · simp only [run_chat_details_validated, hv]

/-- C10 witness: a message with role `"tool"` is rejected on both
endpoints whatever the provider would have answered. -/
theorem invalid_role_rejected_witness :
    ([({ role := "tool", content := "x" } : RawMessage)].any
      (fun m => (parseRole m.role).isNone)) = true ∧
    validateMessages [{ role := "tool", content := "x" }] = none ∧
    run_chat_endpoint_validated stLoaded
        [{ role := "tool", content := "x" }] none none none none providerOk =
      Except.error validationError ∧
    run_chat_details_validated stLoaded
        [{ role := "tool", content := "x" }] none none none none providerOk =
      Except.error validationError :=
  ⟨by decide,
   (invalid_role_rejected_before_provider stLoaded
      [{ role := "tool", content := "x" }] none none none none providerOk
      (fun _ => Except.error (ProviderError.other "x")) (by decide)).1,
   (invalid_role_rejected_before_provider stLoaded
      [{ role := "tool", content := "x" }] none none none none providerOk
      (fun _ => Except.error (ProviderError.other "x")) (by decide)).2.1,
   (invalid_role_rejected_before_provider stLoaded
      [{ role := "tool", content := "x" }] none none none none providerOk
      (fun _ => Except.error (ProviderError.other "x")) (by decide)).2.2.1⟩

end FlexOne
